import Mathlib

/-
  Verification of the Azure AI Foundry agent glue code
  (docs/src/user-guide/extensions-user-guide/azure-foundry-agent.ipynb).

  The notebook defines one coroutine, bing_example, which
    1. enters a scoped DefaultAzureCredential,
    2. enters a scoped AIProjectClient built from the credential and the
       AZURE_PROJECT_ENDPOINT environment variable (default ""),
    3. resolves the connection named by BING_CONNECTION_NAME (default ""),
    4. builds a BingGroundingTool from the connection id,
    5. constructs an AzureAIAgent record from literal configuration plus the
       project client and the tool definitions,
    6. calls agent.on_messages with a single literal TextMessage, a freshly
       created CancellationToken, and message_limit = 5, and
    7. prints the result.

  All external behavior (the Azure identity, project, and agent SDKs) is kept
  abstract as an oracle of outcomes; the glue itself is embedded as a pure
  function from that oracle to the ordered trace of observable events together
  with the propagated exception, if any. The nested async-with blocks are
  embedded with their Python semantics: after a successful enter, the matching
  exit runs on every path, innermost first, before a result or exception
  propagates to the caller.
-/

namespace AzureFoundryGlue

/-- A chat message as built in the notebook: autogen TextMessage carrying a
content string and a source tag. -/
structure TextMessage where
  content : String
  source : String
deriving DecidableEq

/-- The agent handle: the record of configuration fields supplied to the
AzureAIAgent constructor call in the notebook. -/
structure AzureAIAgent (PC ToolDefs : Type) where
  name : String
  description : String
  project_client : PC
  deployment_name : String
  instructions : String
  tools : ToolDefs
  metadata : List (String × String)
deriving DecidableEq

/-- Observable events of one run of the glue, recorded in execution order. -/
inductive Ev (PC ToolDefs Tok ρ : Type) where
  | enterCredential : Ev PC ToolDefs Tok ρ
  | exitCredential : Ev PC ToolDefs Tok ρ
  | enterProjectClient (endpoint : String) : Ev PC ToolDefs Tok ρ
  | exitProjectClient : Ev PC ToolDefs Tok ρ
  | connectionsGet (name : String) : Ev PC ToolDefs Tok ρ
  | buildTool (connectionId : String) : Ev PC ToolDefs Tok ρ
  | constructAgent (agent : AzureAIAgent PC ToolDefs) : Ev PC ToolDefs Tok ρ
  | callOnMessages (agent : AzureAIAgent PC ToolDefs) (messages : List TextMessage)
      (token : Tok) (limit : Nat) : Ev PC ToolDefs Tok ρ
  | printed (result : ρ) : Ev PC ToolDefs Tok ρ
deriving DecidableEq

/-- Oracle of outcomes of the external SDK calls the notebook issues. These
are Azure SDK behaviors, external to the repository; the glue is parametric
in them. -/
structure SDK (ε Cred PC Conn ToolDefs Tok ρ : Type) where
  enterCredential : Except ε Cred
  enterProjectClient : Cred → String → Except ε PC
  connectionsGet : PC → String → Except ε Conn
  connId : Conn → String
  bingToolDefinitions : String → ToolDefs
  newCancellationToken : Tok
  onMessages : AzureAIAgent PC ToolDefs → List TextMessage → Tok → Nat → Except ε ρ

/-- os.getenv with a default: the value of the variable when it is set, the
default otherwise. -/
def getenv (value : Option String) (dflt : String) : String :=
  value.getD dflt

/-- The literal message built at the call-site of on_messages. -/
def taskMessage : TextMessage :=
  { content := "What is Microsoft\x27s annual leave policy? Provide citations for your answers.",
    source := "user" }

/-- The message list passed to on_messages: exactly one message. -/
def callSiteMessages : List TextMessage := [taskMessage]

/-- The message_limit argument passed to on_messages. -/
def callSiteLimit : Nat := 5

variable {ε Cred PC Conn ToolDefs Tok ρ : Type}

/-- The agent record constructed by the AzureAIAgent call in the notebook:
literal configuration fields, the project client in scope, and the tool
definitions derived from the resolved connection. -/
def builtAgent (project_client : PC) (defs : ToolDefs) : AzureAIAgent PC ToolDefs :=
  { name := "bing_agent",
    description := "An AI assistant with Bing grounding",
    project_client := project_client,
    deployment_name := "gpt-4o",
    instructions := "You are a helpful assistant.",
    tools := defs,
    metadata := [("source", "AzureAIAgent")] }

/-- The exception, if any, that a bare Except-returning call propagates. -/
def propagatedError : Except ε ρ → Option ε
  | .ok _ => none
  | .error e => some e

/-- Shallow embedding of the notebook coroutine bing_example. Given the SDK
oracle and the two environment variables, it returns the ordered trace of
observable events and the exception that propagates to the caller (none on
normal completion; the Python coroutine returns None). The nested matches
mirror the two nested async-with blocks: after a successful enter the
matching exit event is emitted on every path, innermost first, before the
exception or result propagates. -/
def bing_example (sdk : SDK ε Cred PC Conn ToolDefs Tok ρ)
    (azureProjectEndpoint bingConnectionName : Option String) :
    List (Ev PC ToolDefs Tok ρ) × Option ε :=
  match sdk.enterCredential with
  | .error e => ([], some e)
  | .ok credential =>
    match sdk.enterProjectClient credential (getenv azureProjectEndpoint "") with
    | .error e => ([Ev.enterCredential, Ev.exitCredential], some e)
    | .ok project_client =>
      let connName := getenv bingConnectionName ""
      let inner : List (Ev PC ToolDefs Tok ρ) × Option ε :=
        match sdk.connectionsGet project_client connName with
        | .error e => ([Ev.connectionsGet connName], some e)
        | .ok conn =>
          let cid := sdk.connId conn
          let agent := builtAgent project_client (sdk.bingToolDefinitions cid)
          let token := sdk.newCancellationToken
          match sdk.onMessages agent callSiteMessages token callSiteLimit with
          | .error e =>
            ([Ev.connectionsGet connName, Ev.buildTool cid, Ev.constructAgent agent,
              Ev.callOnMessages agent callSiteMessages token callSiteLimit], some e)
          | .ok result =>
            ([Ev.connectionsGet connName, Ev.buildTool cid, Ev.constructAgent agent,
              Ev.callOnMessages agent callSiteMessages token callSiteLimit,
              Ev.printed result], none)
      (Ev.enterCredential :: Ev.enterProjectClient (getenv azureProjectEndpoint "") ::
        (inner.1 ++ [Ev.exitProjectClient, Ev.exitCredential]), inner.2)

/-- Whether an event is an on_messages call. -/
def Ev.isCallOnMessages : Ev PC ToolDefs Tok ρ → Bool
  | .callOnMessages _ _ _ _ => true
  | _ => false

/-- Whether an event is an agent construction. -/
def Ev.isConstructAgent : Ev PC ToolDefs Tok ρ → Bool
  | .constructAgent _ => true
  | _ => false

/-- Whether an event is a print of the result. -/
def Ev.isPrinted : Ev PC ToolDefs Tok ρ → Bool
  | .printed _ => true
  | _ => false

/-- A fully succeeding concrete SDK oracle, for evaluating the theorems on a
closed input. -/
def sdkOk : SDK Nat Unit Unit Unit Nat Unit Nat where
  enterCredential := .ok ()
  enterProjectClient := fun _ _ => .ok ()
  connectionsGet := fun _ _ => .ok ()
  connId := fun _ => "conn-123"
  bingToolDefinitions := fun _ => 1
  newCancellationToken := ()
  onMessages := fun _ _ _ _ => .ok 99

/-- A concrete SDK oracle whose connection lookup fails with error 7. -/
def sdkConnMissing : SDK Nat Unit Unit Unit Nat Unit Nat :=
  { sdkOk with connectionsGet := fun _ _ => .error 7 }

/-- A concrete SDK oracle whose on_messages call fails with error 13. -/
def sdkCallFails : SDK Nat Unit Unit Unit Nat Unit Nat :=
  { sdkOk with onMessages := fun _ _ _ _ => .error 13 }

/-- Claim C1: whenever the glue reaches agent construction (credential,
project client and connection lookup succeeded, on a configuration with
non-empty endpoint and resource name), the constructed agent handle carries
exactly the supplied fields — name, description, project client, deployment
name, instructions, tool definitions derived from the resolved connection,
and metadata — unmodified. -/
theorem C1_agent_fields_exact (sdk : SDK ε Cred PC Conn ToolDefs Tok ρ)
    (epVar cnVar : Option String)
    (credential : Cred) (project_client : PC) (conn : Conn)
    (hep : getenv epVar "" ≠ "") (hcn : getenv cnVar "" ≠ "")
    (hc : sdk.enterCredential = .ok credential)
    (hp : sdk.enterProjectClient credential (getenv epVar "") = .ok project_client)
    (hg : sdk.connectionsGet project_client (getenv cnVar "") = .ok conn) :
    Ev.constructAgent
        { name := "bing_agent",
          description := "An AI assistant with Bing grounding",
          project_client := project_client,
          deployment_name := "gpt-4o",
          instructions := "You are a helpful assistant.",
          tools := sdk.bingToolDefinitions (sdk.connId conn),
          metadata := [("source", "AzureAIAgent")] }
      ∈ (bing_example sdk epVar cnVar).1 := by
  simp only [bing_example, hc, hp, hg]
  cases hom : sdk.onMessages (builtAgent project_client (sdk.bingToolDefinitions (sdk.connId conn)))
      callSiteMessages sdk.newCancellationToken callSiteLimit with
  | error e => simp [hom, builtAgent]
  | ok r => simp [hom, builtAgent]

/-- Witness for C1 at the all-succeeding oracle. -/
theorem C1_agent_fields_exact_witness :
    Ev.constructAgent
        { name := "bing_agent",
          description := "An AI assistant with Bing grounding",
          project_client := (),
          deployment_name := "gpt-4o",
          instructions := "You are a helpful assistant.",
          tools := (1 : Nat),
          metadata := [("source", "AzureAIAgent")] }
      ∈ (bing_example sdkOk (some "ep.example") (some "bing-conn")).1 :=
  C1_agent_fields_exact sdkOk (some "ep.example") (some "bing-conn") () () ()
    (by decide) (by decide) rfl rfl rfl

/-- Claim C2: whenever the glue reaches the on_messages call, the
cancellation token created at the call-site and the literal message limit 5
are the very values the message-handling operation receives: the recorded
call event carries them, and the run outcome is exactly the outcome of
sdk.onMessages applied at those values. -/
theorem C2_token_limit_forwarded (sdk : SDK ε Cred PC Conn ToolDefs Tok ρ)
    (epVar cnVar : Option String)
    (credential : Cred) (project_client : PC) (conn : Conn)
    (hc : sdk.enterCredential = .ok credential)
    (hp : sdk.enterProjectClient credential (getenv epVar "") = .ok project_client)
    (hg : sdk.connectionsGet project_client (getenv cnVar "") = .ok conn) :
    Ev.callOnMessages (builtAgent project_client (sdk.bingToolDefinitions (sdk.connId conn)))
        callSiteMessages sdk.newCancellationToken callSiteLimit
      ∈ (bing_example sdk epVar cnVar).1 ∧
    (bing_example sdk epVar cnVar).2 =
      propagatedError (sdk.onMessages
        (builtAgent project_client (sdk.bingToolDefinitions (sdk.connId conn)))
        callSiteMessages sdk.newCancellationToken callSiteLimit) := by
  simp only [bing_example, hc, hp, hg]
  cases hom : sdk.onMessages (builtAgent project_client (sdk.bingToolDefinitions (sdk.connId conn)))
      callSiteMessages sdk.newCancellationToken callSiteLimit with
  | error e => simp [hom, propagatedError]
  | ok r => simp [hom, propagatedError]

/-- Witness for C2 at the all-succeeding oracle. -/
theorem C2_token_limit_forwarded_witness :
    Ev.callOnMessages (builtAgent () (1 : Nat)) callSiteMessages () callSiteLimit
        ∈ (bing_example sdkOk (some "ep.example") (some "bing-conn")).1 ∧
    (bing_example sdkOk (some "ep.example") (some "bing-conn")).2 =
      propagatedError (sdkOk.onMessages (builtAgent () 1) callSiteMessages () callSiteLimit) :=
  C2_token_limit_forwarded sdkOk (some "ep.example") (some "bing-conn") () () () rfl rfl rfl

/-- Claim C3: when the connection lookup fails, its exception is what
propagates, and the run contains no agent construction and no on_messages
call: the lookup fails before the agent handle is constructed and before any
message-handling call is attempted. -/
theorem C3_lookup_fails_fast (sdk : SDK ε Cred PC Conn ToolDefs Tok ρ)
    (epVar cnVar : Option String)
    (credential : Cred) (project_client : PC) (e : ε)
    (hc : sdk.enterCredential = .ok credential)
    (hp : sdk.enterProjectClient credential (getenv epVar "") = .ok project_client)
    (hg : sdk.connectionsGet project_client (getenv cnVar "") = .error e) :
    (bing_example sdk epVar cnVar).2 = some e ∧
    (bing_example sdk epVar cnVar).1.filter Ev.isConstructAgent = [] ∧
    (bing_example sdk epVar cnVar).1.filter Ev.isCallOnMessages = [] := by
  simp [bing_example, hc, hp, hg, Ev.isConstructAgent, Ev.isCallOnMessages]

/-- Witness for C3 at the oracle whose connection lookup fails with error 7. -/
theorem C3_lookup_fails_fast_witness :
    (bing_example sdkConnMissing (some "ep.example") (some "bing-conn")).2 = some 7 ∧
    (bing_example sdkConnMissing (some "ep.example") (some "bing-conn")).1.filter
        Ev.isConstructAgent = [] ∧
    (bing_example sdkConnMissing (some "ep.example") (some "bing-conn")).1.filter
        Ev.isCallOnMessages = [] :=
  C3_lookup_fails_fast sdkConnMissing (some "ep.example") (some "bing-conn") () () 7 rfl rfl rfl

/-- Claim C4: on the success path the trace is exactly the strict sequence
credential acquisition, project-client construction, resource lookup, tool
construction from the resolved connection id, agent construction, the
on_messages call, the print, then the scoped releases — each step consuming
the result of the previous one, none reordered or skipped. -/
theorem C4_strict_sequential_order (sdk : SDK ε Cred PC Conn ToolDefs Tok ρ)
    (epVar cnVar : Option String)
    (credential : Cred) (project_client : PC) (conn : Conn) (r : ρ)
    (hc : sdk.enterCredential = .ok credential)
    (hp : sdk.enterProjectClient credential (getenv epVar "") = .ok project_client)
    (hg : sdk.connectionsGet project_client (getenv cnVar "") = .ok conn)
    (hom : sdk.onMessages (builtAgent project_client (sdk.bingToolDefinitions (sdk.connId conn)))
        callSiteMessages sdk.newCancellationToken callSiteLimit = .ok r) :
    (bing_example sdk epVar cnVar).1 =
      [Ev.enterCredential,
       Ev.enterProjectClient (getenv epVar ""),
       Ev.connectionsGet (getenv cnVar ""),
       Ev.buildTool (sdk.connId conn),
       Ev.constructAgent (builtAgent project_client (sdk.bingToolDefinitions (sdk.connId conn))),
       Ev.callOnMessages (builtAgent project_client (sdk.bingToolDefinitions (sdk.connId conn)))
         callSiteMessages sdk.newCancellationToken callSiteLimit,
       Ev.printed r,
       Ev.exitProjectClient,
       Ev.exitCredential] := by
  simp [bing_example, hc, hp, hg, hom]

/-- Witness for C4 at the all-succeeding oracle. -/
theorem C4_strict_sequential_order_witness :
    (bing_example sdkOk (some "ep.example") (some "bing-conn")).1 =
      [Ev.enterCredential,
       Ev.enterProjectClient "ep.example",
       Ev.connectionsGet "bing-conn",
       Ev.buildTool "conn-123",
       Ev.constructAgent (builtAgent () (1 : Nat)),
       Ev.callOnMessages (builtAgent () 1) callSiteMessages () callSiteLimit,
       Ev.printed 99,
       Ev.exitProjectClient,
       Ev.exitCredential] :=
  C4_strict_sequential_order sdkOk (some "ep.example") (some "bing-conn") () () () 99
    rfl rfl rfl rfl

/-- Claim C5: once the credential and the project client have been acquired,
every exit path of the glue — normal completion and every exception from the
connection lookup or the on_messages call — releases the project client and
then the credential as its final two events, before the result or exception
propagates. -/
theorem C5_scoped_release_all_paths (sdk : SDK ε Cred PC Conn ToolDefs Tok ρ)
    (epVar cnVar : Option String)
    (credential : Cred) (project_client : PC)
    (hc : sdk.enterCredential = .ok credential)
    (hp : sdk.enterProjectClient credential (getenv epVar "") = .ok project_client) :
    ∃ pre, (bing_example sdk epVar cnVar).1 =
      pre ++ [Ev.exitProjectClient, Ev.exitCredential] := by
  simp only [bing_example, hc, hp]
  cases hg : sdk.connectionsGet project_client (getenv cnVar "") with
  | error e =>
      exact ⟨[Ev.enterCredential, Ev.enterProjectClient (getenv epVar ""),
        Ev.connectionsGet (getenv cnVar "")], by simp [hg]⟩
  | ok conn =>
      cases hom : sdk.onMessages (builtAgent project_client (sdk.bingToolDefinitions (sdk.connId conn)))
          callSiteMessages sdk.newCancellationToken callSiteLimit with
      | error e =>
          exact ⟨[Ev.enterCredential, Ev.enterProjectClient (getenv epVar ""),
            Ev.connectionsGet (getenv cnVar ""), Ev.buildTool (sdk.connId conn),
            Ev.constructAgent (builtAgent project_client (sdk.bingToolDefinitions (sdk.connId conn))),
            Ev.callOnMessages (builtAgent project_client (sdk.bingToolDefinitions (sdk.connId conn)))
              callSiteMessages sdk.newCancellationToken callSiteLimit], by simp [hg, hom]⟩
      | ok r =>
          exact ⟨[Ev.enterCredential, Ev.enterProjectClient (getenv epVar ""),
            Ev.connectionsGet (getenv cnVar ""), Ev.buildTool (sdk.connId conn),
            Ev.constructAgent (builtAgent project_client (sdk.bingToolDefinitions (sdk.connId conn))),
            Ev.callOnMessages (builtAgent project_client (sdk.bingToolDefinitions (sdk.connId conn)))
              callSiteMessages sdk.newCancellationToken callSiteLimit,
            Ev.printed r], by simp [hg, hom]⟩

/-- Witness for C5 at the oracle whose on_messages call raises. -/
theorem C5_scoped_release_all_paths_witness :
    ∃ pre, (bing_example sdkCallFails (some "ep.example") (some "bing-conn")).1 =
      pre ++ [Ev.exitProjectClient, Ev.exitCredential] :=
  C5_scoped_release_all_paths sdkCallFails (some "ep.example") (some "bing-conn") () () rfl rfl

/-- Claim C6: whichever external call is the first to fail — credential
entry, project-client entry, connection lookup, or the on_messages call —
the exact exception it raised is what the glue propagates to the caller,
with no recovery, retry, or translation. -/
theorem C6_errors_propagate_unmodified (sdk : SDK ε Cred PC Conn ToolDefs Tok ρ)
    (epVar cnVar : Option String) :
    (∀ e, sdk.enterCredential = .error e → (bing_example sdk epVar cnVar).2 = some e) ∧
    (∀ credential e, sdk.enterCredential = .ok credential →
      sdk.enterProjectClient credential (getenv epVar "") = .error e →
      (bing_example sdk epVar cnVar).2 = some e) ∧
    (∀ credential project_client e, sdk.enterCredential = .ok credential →
      sdk.enterProjectClient credential (getenv epVar "") = .ok project_client →
      sdk.connectionsGet project_client (getenv cnVar "") = .error e →
      (bing_example sdk epVar cnVar).2 = some e) ∧
    (∀ credential project_client conn e, sdk.enterCredential = .ok credential →
      sdk.enterProjectClient credential (getenv epVar "") = .ok project_client →
      sdk.connectionsGet project_client (getenv cnVar "") = .ok conn →
      sdk.onMessages (builtAgent project_client (sdk.bingToolDefinitions (sdk.connId conn)))
        callSiteMessages sdk.newCancellationToken callSiteLimit = .error e →
      (bing_example sdk epVar cnVar).2 = some e) := by
  refine ⟨?_, ?_, ?_, ?_⟩
  · intro e hc
    simp [bing_example, hc]
  · intro credential e hc hp
    simp [bing_example, hc, hp]
  · intro credential project_client e hc hp hg
    simp [bing_example, hc, hp, hg]
  · intro credential project_client conn e hc hp hg hom
    simp [bing_example, hc, hp, hg, hom]

/-- Witness for C6 at the oracle whose on_messages call raises error 13. -/
theorem C6_errors_propagate_unmodified_witness :
    (bing_example sdkCallFails (some "ep.example") (some "bing-conn")).2 = some 13 :=
  (C6_errors_propagate_unmodified sdkCallFails (some "ep.example")
    (some "bing-conn")).2.2.2 () () () 13 rfl rfl rfl rfl

/-- Counterexample to claim C7 as stated: in the execution where the
connection lookup fails, the message-handling operation is invoked zero
times, not exactly once. -/
theorem C7_counterexample_failed_lookup :
    ((bing_example sdkConnMissing (some "ep.example") (some "bing-conn")).1.filter
      Ev.isCallOnMessages).length ≠ 1 := by
  decide

/-- Claim C7 (amended: restricted to executions that reach the call, i.e.
where credential entry, project-client entry and connection lookup succeed):
the glue invokes the message-handling operation exactly once — the calls
recorded in the trace are exactly one — and the message sequence it passes
contains exactly one message. -/
theorem C7_exactly_one_call_one_message (sdk : SDK ε Cred PC Conn ToolDefs Tok ρ)
    (epVar cnVar : Option String)
    (credential : Cred) (project_client : PC) (conn : Conn)
    (hc : sdk.enterCredential = .ok credential)
    (hp : sdk.enterProjectClient credential (getenv epVar "") = .ok project_client)
    (hg : sdk.connectionsGet project_client (getenv cnVar "") = .ok conn) :
    (bing_example sdk epVar cnVar).1.filter Ev.isCallOnMessages =
      [Ev.callOnMessages (builtAgent project_client (sdk.bingToolDefinitions (sdk.connId conn)))
        callSiteMessages sdk.newCancellationToken callSiteLimit] ∧
    callSiteMessages.length = 1 := by
  refine ⟨?_, rfl⟩
  simp only [bing_example, hc, hp, hg]
  cases hom : sdk.onMessages (builtAgent project_client (sdk.bingToolDefinitions (sdk.connId conn)))
      callSiteMessages sdk.newCancellationToken callSiteLimit with
  | error e => simp [hom, Ev.isCallOnMessages]
  | ok r => simp [hom, Ev.isCallOnMessages]

/-- Witness for the amended C7 at the all-succeeding oracle. -/
theorem C7_exactly_one_call_one_message_witness :
    (bing_example sdkOk (some "ep.example") (some "bing-conn")).1.filter Ev.isCallOnMessages =
      [Ev.callOnMessages (builtAgent () (1 : Nat)) callSiteMessages () callSiteLimit] ∧
    callSiteMessages.length = 1 :=
  C7_exactly_one_call_one_message sdkOk (some "ep.example") (some "bing-conn") () () ()
    rfl rfl rfl

/-- Claim C8: whatever response object the external on_messages call returns,
the glue prints exactly that object and nothing else — the only print event
is of the returned object, unmodified — and completes normally; the message
sent is the fixed literal question about annual leave policy with a request
for citations. -/
theorem C8_response_printed_unmodified (sdk : SDK ε Cred PC Conn ToolDefs Tok ρ)
    (epVar cnVar : Option String)
    (credential : Cred) (project_client : PC) (conn : Conn) (r : ρ)
    (hc : sdk.enterCredential = .ok credential)
    (hp : sdk.enterProjectClient credential (getenv epVar "") = .ok project_client)
    (hg : sdk.connectionsGet project_client (getenv cnVar "") = .ok conn)
    (hom : sdk.onMessages (builtAgent project_client (sdk.bingToolDefinitions (sdk.connId conn)))
        callSiteMessages sdk.newCancellationToken callSiteLimit = .ok r) :
    (bing_example sdk epVar cnVar).1.filter Ev.isPrinted = [Ev.printed r] ∧
    (bing_example sdk epVar cnVar).2 = none ∧
    taskMessage.content =
      "What is Microsoft\x27s annual leave policy? Provide citations for your answers." := by
  refine ⟨?_, ?_, rfl⟩
  · simp [bing_example, hc, hp, hg, hom, Ev.isPrinted]
  · simp [bing_example, hc, hp, hg, hom]

/-- Witness for C8 at the all-succeeding oracle, whose response is 99. -/
theorem C8_response_printed_unmodified_witness :
    (bing_example sdkOk (some "ep.example") (some "bing-conn")).1.filter Ev.isPrinted =
      [Ev.printed (99 : Nat)] ∧
    (bing_example sdkOk (some "ep.example") (some "bing-conn")).2 = none ∧
    taskMessage.content =
      "What is Microsoft\x27s annual leave policy? Provide citations for your answers." :=
  C8_response_printed_unmodified sdkOk (some "ep.example") (some "bing-conn") () () () 99
    rfl rfl rfl rfl

/-- Claim C9: the agent configuration is created exactly once — a single
construction event, whose record carries the literal setup values — and the
agent value the on_messages call consumes is that very record, unchanged
between construction and use. -/
theorem C9_config_created_once_immutable (sdk : SDK ε Cred PC Conn ToolDefs Tok ρ)
    (epVar cnVar : Option String)
    (credential : Cred) (project_client : PC) (conn : Conn)
    (hc : sdk.enterCredential = .ok credential)
    (hp : sdk.enterProjectClient credential (getenv epVar "") = .ok project_client)
    (hg : sdk.connectionsGet project_client (getenv cnVar "") = .ok conn) :
    (bing_example sdk epVar cnVar).1.filter Ev.isConstructAgent =
      [Ev.constructAgent (builtAgent project_client (sdk.bingToolDefinitions (sdk.connId conn)))] ∧
    (bing_example sdk epVar cnVar).1.filter Ev.isCallOnMessages =
      [Ev.callOnMessages (builtAgent project_client (sdk.bingToolDefinitions (sdk.connId conn)))
        callSiteMessages sdk.newCancellationToken callSiteLimit] ∧
    (builtAgent project_client (sdk.bingToolDefinitions (sdk.connId conn)) :
        AzureAIAgent PC ToolDefs).name = "bing_agent" ∧
    (builtAgent project_client (sdk.bingToolDefinitions (sdk.connId conn)) :
        AzureAIAgent PC ToolDefs).description = "An AI assistant with Bing grounding" ∧
    (builtAgent project_client (sdk.bingToolDefinitions (sdk.connId conn)) :
        AzureAIAgent PC ToolDefs).deployment_name = "gpt-4o" ∧
    (builtAgent project_client (sdk.bingToolDefinitions (sdk.connId conn)) :
        AzureAIAgent PC ToolDefs).instructions = "You are a helpful assistant." ∧
    (builtAgent project_client (sdk.bingToolDefinitions (sdk.connId conn)) :
        AzureAIAgent PC ToolDefs).metadata = [("source", "AzureAIAgent")] := by
  refine ⟨?_, ?_, rfl, rfl, rfl, rfl, rfl⟩
  all_goals
    simp only [bing_example, hc, hp, hg]
    cases hom : sdk.onMessages (builtAgent project_client (sdk.bingToolDefinitions (sdk.connId conn)))
        callSiteMessages sdk.newCancellationToken callSiteLimit
    all_goals simp [hom, Ev.isConstructAgent, Ev.isCallOnMessages]

/-- Witness for C9 at the all-succeeding oracle. -/
theorem C9_config_created_once_immutable_witness :
    (bing_example sdkOk (some "ep.example") (some "bing-conn")).1.filter Ev.isConstructAgent =
      [Ev.constructAgent (builtAgent () (1 : Nat))] ∧
    (bing_example sdkOk (some "ep.example") (some "bing-conn")).1.filter Ev.isCallOnMessages =
      [Ev.callOnMessages (builtAgent () 1) callSiteMessages () callSiteLimit] ∧
    (builtAgent () (1 : Nat) : AzureAIAgent Unit Nat).name = "bing_agent" ∧
    (builtAgent () (1 : Nat) : AzureAIAgent Unit Nat).description =
      "An AI assistant with Bing grounding" ∧
    (builtAgent () (1 : Nat) : AzureAIAgent Unit Nat).deployment_name = "gpt-4o" ∧
    (builtAgent () (1 : Nat) : AzureAIAgent Unit Nat).instructions =
      "You are a helpful assistant." ∧
    (builtAgent () (1 : Nat) : AzureAIAgent Unit Nat).metadata = [("source", "AzureAIAgent")] :=
  C9_config_created_once_immutable sdkOk (some "ep.example") (some "bing-conn") () () ()
    rfl rfl rfl

/-- Claim C10: with AZURE_PROJECT_ENDPOINT and BING_CONNECTION_NAME unset the
glue performs no local validation and does not fail locally: it behaves
exactly as if both variables were the empty string, and the empty string is
what the external SDK receives as the endpoint and as the connection name. -/
theorem C10_unset_env_defaults_to_empty (sdk : SDK ε Cred PC Conn ToolDefs Tok ρ)
    (credential : Cred) (project_client : PC)
    (hc : sdk.enterCredential = .ok credential)
    (hp : sdk.enterProjectClient credential "" = .ok project_client) :
    bing_example sdk none none = bing_example sdk (some "") (some "") ∧
    Ev.enterProjectClient "" ∈ (bing_example sdk none none).1 ∧
    Ev.connectionsGet "" ∈ (bing_example sdk none none).1 := by
  refine ⟨rfl, ?_, ?_⟩
  all_goals
    simp only [bing_example, getenv, Option.getD, hc, hp]
    cases hg : sdk.connectionsGet project_client "" with
    | error e => simp [hg]
    | ok conn =>
        cases hom : sdk.onMessages (builtAgent project_client (sdk.bingToolDefinitions (sdk.connId conn)))
            callSiteMessages sdk.newCancellationToken callSiteLimit
        all_goals simp [hg, hom]

/-- Witness for C10 at the all-succeeding oracle. -/
theorem C10_unset_env_defaults_to_empty_witness :
    bing_example sdkOk none none = bing_example sdkOk (some "") (some "") ∧
    Ev.enterProjectClient "" ∈ (bing_example sdkOk none none).1 ∧
    Ev.connectionsGet "" ∈ (bing_example sdkOk none none).1 :=
  C10_unset_env_defaults_to_empty sdkOk () () rfl rfl

end AzureFoundryGlue
